import Mathlib

/-!
Verification development for the question-paper ingestion and query pipeline
(`pdf_processor.py` / `query_processor.py`).

The repository's own logic is glue code over external services (OCR engine,
LLM endpoint, blob storage, relational store).  We embed that logic shallowly:

* Python/JSON values appearing in the metadata dicts become `PyVal`
  (JSON floats are outside the modelled value universe; Python `bool` is a
  subclass of `int`, which `PyVal.bool` preserves via `pyIntOf`);
* Python dicts become association lists (`PyDict`) with `dictLookup` /
  `dictSet` mirroring `d.get(k)` / `d[k] = v`;
* each external call (OCR, LLM, upload, insert) is an oracle field of an
  environment record, so a pipeline run is a pure function of its oracles;
* `re.search(r"\b(20\d\d)\b", text)` becomes `findYear20`, a left-to-right
  scan over the character list with explicit word-boundary tracking (word
  characters are modelled as ASCII `[A-Za-z0-9_]`, the ASCII fragment of
  Python's `\w`).
-/

/-- A Python/JSON value as it appears in the pipeline's metadata dicts.
`other` models non-string, non-numeric JSON values (arrays, objects): it
records Python truthiness and the `str()` rendering, and `int()` raises
`TypeError` on it. -/
inductive PyVal where
  | none
  | str (s : String)
  | int (n : Int)
  | bool (b : Bool)
  | other (truthy : Bool) (rendered : String)
deriving DecidableEq

/-- A Python dict with string keys, as an insertion-ordered association list. -/
abbrev PyDict := List (String × PyVal)

/-- Python `d.get(k)` without the default: `some v` iff the key is present. -/
def dictLookup (m : PyDict) (k : String) : Option PyVal :=
  match m with
  | [] => Option.none
  | (k₁, v) :: rest => if k₁ = k then some v else dictLookup rest k

/-- Python `d[k] = v`: replace the value of an existing key in place, else append. -/
def dictSet (m : PyDict) (k : String) (v : PyVal) : PyDict :=
  match m with
  | [] => [(k, v)]
  | (k₁, v₁) :: rest => if k₁ = k then (k, v) :: rest else (k₁, v₁) :: dictSet rest k v

/-- Python `d.get(k)`, with the `None` default. -/
def pyGet (m : PyDict) (k : String) : PyVal :=
  (dictLookup m k).getD PyVal.none

/-- Python truthiness of a value (`if metadata.get(...):`). -/
def pyTruthy : PyVal → Bool
  | PyVal.none => false
  | PyVal.str s => !(s == "")
  | PyVal.int n => !(n == 0)
  | PyVal.bool b => b
  | PyVal.other t _ => t

/-- Python `str()` of a value, as used in f-string interpolation. -/
def pyStr : PyVal → String
  | PyVal.none => "None"
  | PyVal.str s => s
  | PyVal.int n => toString n
  | PyVal.bool b => if b then "True" else "False"
  | PyVal.other _ r => r

/-- Numeric value of an ASCII digit character. -/
def digitVal (c : Char) : Nat := c.toNat - 48

/-- Parse a run of characters as decimal digits (`none` on a non-digit);
the empty run yields the accumulator. -/
def parseDigitsAux : List Char → Nat → Option Nat
  | [], acc => some acc
  | c :: cs, acc => if c.isDigit then parseDigitsAux cs (acc * 10 + digitVal c) else Option.none

/-- Python `str.strip()`: drop leading and trailing whitespace. -/
def pyStrip (s : String) : String :=
  String.mk (((s.data.dropWhile Char.isWhitespace).reverse.dropWhile Char.isWhitespace).reverse)

/-- Python `int(s)` on a string: strip whitespace, optional sign, then a
nonempty digit run; `none` models `ValueError`. -/
def pyIntOfString (s : String) : Option Int :=
  match (pyStrip s).data with
  | [] => Option.none
  | '+' :: cs =>
      if cs = [] then Option.none else (parseDigitsAux cs 0).map Int.ofNat
  | '-' :: cs =>
      if cs = [] then Option.none else (parseDigitsAux cs 0).map (fun n => -(Int.ofNat n : Int))
  | cs => (parseDigitsAux cs 0).map Int.ofNat

/-- Python `int(v)` on an arbitrary value; `none` models `ValueError` and
`TypeError`.  `bool` is an `int` subclass in Python, so it converts. -/
def pyIntOf : PyVal → Option Int
  | PyVal.str s => pyIntOfString s
  | PyVal.int n => some n
  | PyVal.bool b => some (if b then 1 else 0)
  | _ => Option.none

/-- Python `\w` restricted to ASCII: letters, digits, underscore. -/
def isWordChar (c : Char) : Bool := c.isAlphanum || c == '_'

/-- The trailing `\b` of the year regex: end of text, or a non-word char next. -/
def noWordAhead : List Char → Bool
  | [] => true
  | c :: _ => !(isWordChar c)

/-- Does the regex body `20\d\d` followed by `\b` match at the head of the list? -/
def year20Pattern : List Char → Bool
  | c₁ :: c₂ :: c₃ :: c₄ :: rest =>
      c₁ == '2' && c₂ == '0' && c₃.isDigit && c₄.isDigit && noWordAhead rest
  | _ => false

/-- The leading `\b` at offset `i`: at offset 0 the preceding context is given
by `prevW`; at `j+1` it is the character at index `j`. -/
def boundaryBefore (prevW : Bool) (cs : List Char) : Nat → Bool
  | 0 => !prevW
  | j + 1 => !(isWordChar (cs.getD j ' '))

/-- The full regex `\b(20\d\d)\b` matches at offset `i` of `cs` (with `prevW`
recording whether a word character precedes `cs`). -/
def yearTokenAt (prevW : Bool) (cs : List Char) (i : Nat) : Bool :=
  boundaryBefore prevW cs i && year20Pattern (cs.drop i)

/-- Integer value of the four-digit token starting at offset `i`. -/
def yearValueAt (cs : List Char) (i : Nat) : Nat :=
  2000 + 10 * digitVal (cs.getD (i + 2) ' ') + digitVal (cs.getD (i + 3) ' ')

/-- Model of `re.search(r"\b(20\d{2})\b", text)`: the left-to-right scan returning
the integer value of the first match (`prevW`: a word character precedes the
remaining text; `false` at the start of the string). -/
def findYear20 : Bool → List Char → Option Nat
  | prevW, c₁ :: c₂ :: c₃ :: c₄ :: rest =>
      if !prevW && year20Pattern (c₁ :: c₂ :: c₃ :: c₄ :: rest) then
        some (2000 + 10 * digitVal c₃ + digitVal c₄)
      else
        findYear20 (isWordChar c₁) (c₂ :: c₃ :: c₄ :: rest)
  | _, _ => Option.none

/-- The constant `pdf_processor.TOP_N_CHARACTERS`. -/
def TOP_N_CHARACTERS : Nat := 600

/-- Python string slicing `s[:n]` (by characters). -/
def pyTake (s : String) (n : Nat) : String := String.mk (s.data.take n)

/-- Model of `if key not in metadata: metadata[key] = None` for one key. -/
def ensureKey (m : PyDict) (k : String) : PyDict :=
  if (dictLookup m k).isSome then m else dictSet m k PyVal.none

/-- The post-parse normalization block of
`extract_metadata_with_groq_llama3` (`pdf_processor.py:147-157`): default the
`department`/`subject` keys to `None` when missing, then standardize `year`
to an integer or `None` — a string-typed year is passed through `int()`
(`None` on `ValueError`), an `int`-typed year (including Python `bool`,
an `int` subclass) is kept, and every other value becomes `None`.
`standardizeYear` is the year part, applied after the key-defaulting loop. -/
def standardizeYear (m₂ : PyDict) : PyDict :=
  match pyGet m₂ "year" with
  | PyVal.str s =>
      match pyIntOfString s with
      | some n => dictSet m₂ "year" (PyVal.int n)
      | Option.none => dictSet m₂ "year" PyVal.none
  | PyVal.int _ => m₂
  | PyVal.bool _ => m₂
  | _ => dictSet m₂ "year" PyVal.none

/-- The whole post-parse normalization of `extract_metadata_with_groq_llama3`:
key-defaulting for `department`/`subject`, then year standardization. -/
def normalizeMetadata (m : PyDict) : PyDict :=
  standardizeYear (ensureKey (ensureKey m "department") "subject")

/-- Step 4 of `process_single_pdf` (`pdf_processor.py:246-257`): when the
model reported no year (`metadata.get("year") is None`), set the year to the
first `\b(20\d{2})\b` match in the truncated text; otherwise leave the
metadata untouched. -/
def applyYearFallback (m : PyDict) (topText : String) : PyDict :=
  if pyGet m "year" = PyVal.none then
    match findYear20 false topText.data with
    | some y => dictSet m "year" (PyVal.int (Int.ofNat y))
    | Option.none => m
  else m

/-- A parameter bound into the SQL query (`%s` placeholder values). -/
inductive SqlParam where
  | s (v : String)
  | i (v : Int)
deriving DecidableEq

/-- The `f"%{value}%"` substring pattern bound to an `ILIKE` condition. -/
def ilikeParam (v : PyVal) : SqlParam := SqlParam.s ("%" ++ pyStr v ++ "%")

/-- The department and subject conditions of `build_sql_query`
(`query_processor.py:116-122`), in order, paired with their parameters. -/
def dsConds (m : PyDict) : List (String × SqlParam) :=
  (if pyTruthy (pyGet m "department") then
     [("department ILIKE %s", ilikeParam (pyGet m "department"))]
   else []) ++
  (if pyTruthy (pyGet m "subject") then
     [("subject ILIKE %s", ilikeParam (pyGet m "subject"))]
   else [])

/-- The year condition of `build_sql_query` (`query_processor.py:124-133`):
a truthy year is passed through `int()`; on `ValueError`/`TypeError` it is
ignored, and an in-range value (`1900 < y < 2100`) becomes an equality
condition. -/
def yearCond (m : PyDict) : List (String × SqlParam) :=
  if pyTruthy (pyGet m "year") then
    match pyIntOf (pyGet m "year") with
    | some y => if 1900 < y ∧ y < 2100 then [("year = %s", SqlParam.i y)] else []
    | Option.none => []
  else []

/-- All filter conditions of `build_sql_query`, in the order the code
appends them (department, subject, year). -/
def sqlConds (m : PyDict) : List (String × SqlParam) :=
  dsConds m ++ yearCond m

/-- The fixed SELECT prefix of `build_sql_query`. -/
def baseQuery : String :=
  "SELECT department, subject, year, file_url FROM metadata.metadata WHERE 1=1"

/-- The fixed ordering suffix of `build_sql_query`. -/
def orderClause : String := " ORDER BY year DESC, department, subject;"

/-- Model of `build_sql_query` (`query_processor.py:109-142`): assemble the SQL text
from the conditions and return it with the parameter list. -/
def build_sql_query (m : PyDict) : String × List SqlParam :=
  let conds := sqlConds m
  ((if conds.isEmpty then baseQuery
    else baseQuery ++ " AND " ++ String.intercalate " AND " (conds.map Prod.fst)) ++
     orderClause,
   conds.map Prod.snd)

/-- A row of the `metadata.metadata` table, as assembled by
`insert_metadata_into_db` (`pdf_processor.py:194-199`). -/
structure DbRow where
  department : PyVal
  subject : PyVal
  year : PyVal
  file_url : PyVal
deriving DecidableEq

/-- The `db_data` dict built by `insert_metadata_into_db` from the pipeline
metadata (each field read with `.get`, defaulting to `None`). -/
def insertRowOf (m : PyDict) : DbRow :=
  { department := pyGet m "department"
    subject := pyGet m "subject"
    year := pyGet m "year"
    file_url := pyGet m "file_url" }

/-- An externally visible storage-layer call made by `process_single_pdf`:
a blob upload (with its returned public URL, `none` on failure) or a
database insert of a row (with its success flag). -/
inductive StorageEvent where
  | upload (path : String) (result : Option String)
  | insert (row : DbRow) (ok : Bool)
deriving DecidableEq

/-- Oracles for one run of `process_single_pdf`: the outcome of each
external call.  `ocrText` is the string returned by
`extract_text_from_bytes` (always a string, `""` on failure);
`llmResponse` is the parsed JSON object from the model (`none`: the request
or JSON parse raised, producing the error dict); `uploadResult` is the
public URL from `supabase_bucket` (`none`: upload failed); `insertOk` is the
outcome of the database insert; `storagePath` stands for the generated
`uuid + extension` key. -/
structure IngestEnv where
  envOk : Bool
  clientOk : Bool
  clientErrMsg : String
  ocrText : String
  llmResponse : Option PyDict
  llmErrMsg : String
  uploadResult : Option String
  insertOk : Bool
  storagePath : String
  filename : String

/-- The dict returned by `process_single_pdf`: which keys are present in the
Python result is mirrored by which `Option` fields are `some`. -/
structure PipelineResult where
  filename : String
  status : String
  message : Option PyVal
  metadata : Option PyDict
  rawText : Option String
deriving DecidableEq

/-- Steps 5-6 of `process_single_pdf` (`pdf_processor.py:260-273`): upload
the file, short-circuit on a falsy URL (`None` or `""`), otherwise record
the URL in the metadata and insert the row. -/
def uploadAndInsert (env : IngestEnv) (metadata₁ : PyDict) (topText : String) :
    PipelineResult × List StorageEvent :=
  let ev₁ := StorageEvent.upload env.storagePath env.uploadResult
  match env.uploadResult with
  | Option.none =>
      ({ filename := env.filename, status := "Error",
         message := some (PyVal.str "Failed to upload file to Supabase storage."),
         metadata := some metadata₁, rawText := some topText }, [ev₁])
  | some u =>
      if u = "" then
        ({ filename := env.filename, status := "Error",
           message := some (PyVal.str "Failed to upload file to Supabase storage."),
           metadata := some metadata₁, rawText := some topText }, [ev₁])
      else
        let metadata₂ := dictSet metadata₁ "file_url" (PyVal.str u)
        let row := insertRowOf metadata₂
        ((if env.insertOk then
            { filename := env.filename, status := "Success",
              message := Option.none,
              metadata := some metadata₂, rawText := some topText }
          else
            { filename := env.filename, status := "Error",
              message := some (PyVal.str "Failed to insert metadata into Supabase database."),
              metadata := some metadata₂, rawText := some topText }),
         [ev₁, StorageEvent.insert row env.insertOk])

/-- Model of `process_single_pdf` (`pdf_processor.py:210-273`), as a function of its
oracles, returning the result dict together with the ordered list of
storage-layer calls it made. -/
def processSinglePdf (env : IngestEnv) : PipelineResult × List StorageEvent :=
  if env.envOk = false then
    ({ filename := env.filename, status := "Error",
       message := some (PyVal.str "Server-side error: .env variables not loaded."),
       metadata := Option.none, rawText := Option.none }, [])
  else if env.clientOk = false then
    ({ filename := env.filename, status := "Error",
       message := some (PyVal.str ("Failed to initialize Supabase client: " ++ env.clientErrMsg)),
       metadata := Option.none, rawText := Option.none }, [])
  else if env.ocrText = "" ∨ pyStrip env.ocrText = "" then
    ({ filename := env.filename, status := "Error",
       message := some (PyVal.str "No text extracted from PDF."),
       metadata := Option.none, rawText := Option.none }, [])
  else
    let topText := pyTake env.ocrText TOP_N_CHARACTERS
    match env.llmResponse with
    | Option.none =>
        ({ filename := env.filename, status := "Error",
           message := some (PyVal.str ("LLM Error: " ++ env.llmErrMsg)),
           metadata := Option.none, rawText := Option.none }, [])
    | some m₀ =>
        let metadata₀ := normalizeMetadata m₀
        match dictLookup metadata₀ "error" with
        | some ev =>
            ({ filename := env.filename, status := "Error", message := some ev,
               metadata := Option.none, rawText := Option.none }, [])
        | Option.none =>
            uploadAndInsert env (applyYearFallback metadata₀ topText) topText

/-- The message of the `NameError` raised by `extract_metadata_from_query`. -/
def nameErrorLLMModel : String := "name 'LLM_MODEL' is not defined"

/-- Oracles for one run of `process_user_query`: the user's query text and
the database outcome (`Except.error` models `run_query` returning its
`[{"error": ...}]` marker list).  There is no LLM oracle: the request is
never sent (see `extract_metadata_from_query`). -/
structure QueryEnv where
  queryText : String
  dbOutcome : Except String (List DbRow)

/-- The dict `process_user_query` would return on a normal return; `Option`
fields mirror key presence in the Python dict. -/
structure QueryResult where
  metadata : Option PyDict
  sql : Option String
  error : Option String
  results : List DbRow
deriving DecidableEq

/-- Model of `extract_metadata_from_query` (`query_processor.py:23-107`).
Building the request `payload` at `query_processor.py:87-92` evaluates the
name `LLM_MODEL`, which is defined nowhere in the module; this happens
before the `try:` at line 94, so every call raises `NameError` past the
function's boundary, and the request, JSON parse and key-defaulting logic
of lines 94-107 is unreachable.  `Except.error` models the uncaught
exception. -/
def extract_metadata_from_query (queryText : String) : Except String PyDict :=
  Except.error nameErrorLLMModel

/-- Model of `process_user_query` (`query_processor.py:172-189`).  The body
has no `try/except`, so the `NameError` from `extract_metadata_from_query`
propagates to the caller on every run (`Except.error`); the error-marker
check, `build_sql_query` and the database call below it (modelled in the
`Except.ok` branch, mirroring lines 175-189) are dead code. -/
def process_user_query (env : QueryEnv) : Except String QueryResult :=
  match extract_metadata_from_query env.queryText with
  | Except.error e => Except.error e
  | Except.ok metadata =>
      match dictLookup metadata "error" with
      | some ev =>
          Except.ok
            { metadata := Option.none
              sql := Option.none
              error := some ("LLM failed: " ++ pyStr ev)
              results := [] }
      | Option.none =>
          let sql := (build_sql_query metadata).1
          match env.dbOutcome with
          | Except.error e =>
              Except.ok
                { metadata := some metadata
                  sql := some sql
                  error := some e
                  results := [] }
          | Except.ok rows =>
              Except.ok
                { metadata := some metadata
                  sql := some sql
                  error := Option.none
                  results := rows }

/-- An abstract page image handed between the renderer, the preprocessor and
the OCR engine. -/
structure PImage where
  id : Nat

/-- Oracles for one run of `extract_text_from_bytes`: the page list from
`convert_from_bytes` (`none`: the renderer raised), the external
`preprocess_image` transform, and `pytesseract.image_to_string` (`none`:
the OCR call raised). -/
structure OcrEnv where
  convert : Option (List PImage)
  prep : PImage → PImage
  imageToString : PImage → Option String

/-- Model of `extract_text_from_bytes` (`pdf_processor.py:37-50`): any failure —
renderer exception, empty page list, OCR exception — is caught and turned
into the empty string; on success the recognized text of the processed
(first) page is returned.  Totality of this definition mirrors the
`try/except` around the whole body: the function never raises. -/
def extract_text_from_bytes (env : OcrEnv) : String :=
  match env.convert with
  | Option.none => ""
  | some [] => ""
  | some (img :: _) =>
      match env.imageToString (env.prep img) with
      | Option.none => ""
      | some t => t

/-- A run in which every external call succeeds. -/
def envAllOk : IngestEnv :=
  { envOk := true
    clientOk := true
    clientErrMsg := ""
    ocrText := "B.Tech exam"
    llmResponse := some [("department", PyVal.str "cse"), ("subject", PyVal.str "ds"),
                         ("year", PyVal.int 2023)]
    llmErrMsg := ""
    uploadResult := some "https://storage/u1.pdf"
    insertOk := true
    storagePath := "u1.pdf"
    filename := "f.pdf" }

/-- A run in which OCR succeeds but the LLM request fails. -/
def envLlmFail : IngestEnv :=
  { envOk := true
    clientOk := true
    clientErrMsg := ""
    ocrText := "Exam paper 2023"
    llmResponse := Option.none
    llmErrMsg := "timeout"
    uploadResult := some "https://storage/u2.pdf"
    insertOk := true
    storagePath := "u2.pdf"
    filename := "g.pdf" }

/-- A run in which the upload stage fails. -/
def envUploadFail : IngestEnv :=
  { envOk := true
    clientOk := true
    clientErrMsg := ""
    ocrText := "Exam 2021 text"
    llmResponse := some [("department", PyVal.str "cse")]
    llmErrMsg := ""
    uploadResult := Option.none
    insertOk := true
    storagePath := "u3.pdf"
    filename := "h.pdf" }

/-- A query run with a reachable database; the pipeline still raises, since
`extract_metadata_from_query` fails before any external call. -/
def qenvAllOk : QueryEnv :=
  { queryText := "show me CSE papers from 2023 about algoritms"
    dbOutcome := Except.ok [] }

/-- An OCR run in which every external call succeeds. -/
def ocrEnvOk : OcrEnv :=
  { convert := some [⟨0⟩]
    prep := fun i => i
    imageToString := fun _ => some "RECOGNIZED TEXT" }

/-- The year value produced by the standardization block of
`extract_metadata_with_groq_llama3`, as a function of the model's year. -/
def normYearVal : PyVal → PyVal
  | PyVal.str s =>
      match pyIntOfString s with
      | some n => PyVal.int n
      | Option.none => PyVal.none
  | PyVal.int n => PyVal.int n
  | PyVal.bool b => PyVal.bool b
  | _ => PyVal.none

theorem dictLookup_dictSet_self (m : PyDict) (k : String) (v : PyVal) :
    dictLookup (dictSet m k v) k = some v := by
  induction m with
  | nil => simp [dictSet, dictLookup]
  | cons p rest ih =>
    obtain ⟨k₁, v₁⟩ := p
    by_cases h : k₁ = k
    · simp [dictSet, dictLookup, h]
    · simp [dictSet, dictLookup, h, ih]

theorem dictLookup_dictSet_ne (m : PyDict) (k k₂ : String) (v : PyVal) (h : k₂ ≠ k) :
    dictLookup (dictSet m k v) k₂ = dictLookup m k₂ := by
  induction m with
  | nil => simp [dictSet, dictLookup, Ne.symm h]
  | cons p rest ih =>
    obtain ⟨k₁, v₁⟩ := p
    by_cases h₁ : k₁ = k
    · subst h₁
      simp [dictSet, dictLookup, Ne.symm h]
    · simp [dictSet, dictLookup, h₁, ih]

theorem pyGet_dictSet_self (m : PyDict) (k : String) (v : PyVal) :
    pyGet (dictSet m k v) k = v := by
  simp [pyGet, dictLookup_dictSet_self]

theorem dictLookup_ensureKey_self (m : PyDict) (k : String) :
    dictLookup (ensureKey m k) k = some (pyGet m k) := by
  unfold ensureKey pyGet
  cases h : dictLookup m k with
  | none => simp [h, dictLookup_dictSet_self]
  | some v => simp [h]

theorem dictLookup_ensureKey_ne (m : PyDict) (k k₂ : String) (h : k₂ ≠ k) :
    dictLookup (ensureKey m k) k₂ = dictLookup m k₂ := by
  unfold ensureKey
  cases hh : (dictLookup m k).isSome
  · simp [dictLookup_dictSet_ne m k k₂ _ h]
  · simp

theorem dictLookup_eq_some_of_pyGet (m : PyDict) (k : String) (v : PyVal)
    (h : pyGet m k = v) (hv : v ≠ PyVal.none) : dictLookup m k = some v := by
  unfold pyGet at h
  cases hl : dictLookup m k with
  | none => rw [hl] at h; exact absurd h.symm hv
  | some w => rw [hl] at h; simp at h; rw [h]

theorem dictLookup_standardizeYear_year (m : PyDict) :
    dictLookup (standardizeYear m) "year" = some (normYearVal (pyGet m "year")) := by
  unfold standardizeYear
  cases hv : pyGet m "year" with
  | str s =>
    cases hp : pyIntOfString s with
    | some n => simp [normYearVal, hp, dictLookup_dictSet_self]
    | none => simp [normYearVal, hp, dictLookup_dictSet_self]
  | int n =>
    rw [dictLookup_eq_some_of_pyGet m "year" _ hv (by simp)]
    simp [normYearVal]
  | bool b =>
    rw [dictLookup_eq_some_of_pyGet m "year" _ hv (by simp)]
    simp [normYearVal]
  | none => simp [normYearVal, dictLookup_dictSet_self]
  | other t r => simp [normYearVal, dictLookup_dictSet_self]

theorem dictLookup_standardizeYear_ne (m : PyDict) (k : String) (h : k ≠ "year") :
    dictLookup (standardizeYear m) k = dictLookup m k := by
  unfold standardizeYear
  cases pyGet m "year" with
  | str s =>
    cases hp : pyIntOfString s with
    | some n => simp [hp, dictLookup_dictSet_ne _ _ _ _ h]
    | none => simp [hp, dictLookup_dictSet_ne _ _ _ _ h]
  | int n => rfl
  | bool b => rfl
  | none => simp [dictLookup_dictSet_ne _ _ _ _ h]
  | other t r => simp [dictLookup_dictSet_ne _ _ _ _ h]

theorem dictLookup_normalizeMetadata_year (m : PyDict) :
    dictLookup (normalizeMetadata m) "year" = some (normYearVal (pyGet m "year")) := by
  unfold normalizeMetadata
  rw [dictLookup_standardizeYear_year]
  unfold pyGet
  rw [dictLookup_ensureKey_ne _ _ _ (by decide), dictLookup_ensureKey_ne _ _ _ (by decide)]

theorem dictLookup_normalizeMetadata_department (m : PyDict) :
    dictLookup (normalizeMetadata m) "department" = some (pyGet m "department") := by
  unfold normalizeMetadata
  rw [dictLookup_standardizeYear_ne _ _ (by decide),
      dictLookup_ensureKey_ne _ _ _ (by decide), dictLookup_ensureKey_self]

theorem dictLookup_normalizeMetadata_subject (m : PyDict) :
    dictLookup (normalizeMetadata m) "subject" =
      some (pyGet (ensureKey m "department") "subject") := by
  unfold normalizeMetadata
  rw [dictLookup_standardizeYear_ne _ _ (by decide), dictLookup_ensureKey_self]

theorem digitVal_le_nine (c : Char) (h : c.isDigit = true) : digitVal c ≤ 9 := by
  simp [Char.isDigit] at h
  obtain ⟨h1, h2⟩ := h
  have n1 : (48 : UInt32).toNat ≤ c.val.toNat := h1
  have n2 : c.val.toNat ≤ (57 : UInt32).toNat := h2
  have e1 : (48 : UInt32).toNat = 48 := rfl
  have e2 : (57 : UInt32).toNat = 57 := rfl
  have e3 : c.toNat = c.val.toNat := rfl
  unfold digitVal
  omega

theorem year20Pattern_eq_false_of_short (l : List Char) (h : l.length < 4) :
    year20Pattern l = false := by
  rcases l with _ | ⟨a, _ | ⟨b, _ | ⟨c, _ | ⟨d, r⟩⟩⟩⟩
  · rfl
  · rfl
  · rfl
  · rfl
  · simp at h; omega

theorem yearTokenAt_short (prevW : Bool) (cs : List Char) (i : Nat) (h : cs.length < 4) :
    yearTokenAt prevW cs i = false := by
  have hd : (cs.drop i).length < 4 := by
    rw [List.length_drop]; omega
  unfold yearTokenAt
  rw [year20Pattern_eq_false_of_short _ hd]
  simp

theorem yearTokenAt_succ (prevW : Bool) (c : Char) (t : List Char) (j : Nat) :
    yearTokenAt prevW (c :: t) (j + 1) = yearTokenAt (isWordChar c) t j := by
  cases j with
  | zero => simp [yearTokenAt, boundaryBefore]
  | succ k => simp [yearTokenAt, boundaryBefore]

theorem yearValueAt_succ (c : Char) (t : List Char) (j : Nat) :
    yearValueAt (c :: t) (j + 1) = yearValueAt t j := by
  unfold yearValueAt
  rw [show j + 1 + 2 = (j + 2) + 1 by omega, show j + 1 + 3 = (j + 3) + 1 by omega,
      List.getD_cons_succ, List.getD_cons_succ]

theorem findYear20_eq_some_first (cs : List Char) : ∀ (prevW : Bool) (i : Nat),
    yearTokenAt prevW cs i = true → (∀ j, j < i → yearTokenAt prevW cs j = false) →
    findYear20 prevW cs = some (yearValueAt cs i) := by
  induction cs with
  | nil =>
    intro prevW i h1 _
    rw [yearTokenAt_short prevW [] i (by simp)] at h1
    exact absurd h1 (by simp)
  | cons c₁ t ih =>
    intro prevW i h1 h2
    cases i with
    | zero =>
      have hc : (!prevW && year20Pattern (c₁ :: t)) = true := by
        simpa [yearTokenAt, boundaryBefore] using h1
      rcases t with _ | ⟨c₂, t⟩
      · simp [year20Pattern] at hc
      rcases t with _ | ⟨c₃, t⟩
      · simp [year20Pattern] at hc
      rcases t with _ | ⟨c₄, rest⟩
      · simp [year20Pattern] at hc
      rw [findYear20, if_pos (by simpa using hc)]
      simp [yearValueAt, List.getD_cons_succ, List.getD_cons_zero]
    | succ i₁ =>
      have h0 : yearTokenAt prevW (c₁ :: t) 0 = false := h2 0 (Nat.succ_pos _)
      have hc : (!prevW && year20Pattern (c₁ :: t)) = false := by
        simpa [yearTokenAt, boundaryBefore] using h0
      have h1' : yearTokenAt (isWordChar c₁) t i₁ = true := by
        rw [← yearTokenAt_succ]; exact h1
      have h2' : ∀ j, j < i₁ → yearTokenAt (isWordChar c₁) t j = false := by
        intro j hj
        rw [← yearTokenAt_succ]; exact h2 (j + 1) (Nat.succ_lt_succ hj)
      rcases t with _ | ⟨c₂, t⟩
      · rw [yearTokenAt_short _ _ _ (by simp)] at h1'
        exact absurd h1' (by simp)
      rcases t with _ | ⟨c₃, t⟩
      · rw [yearTokenAt_short _ _ _ (by simp)] at h1'
        exact absurd h1' (by simp)
      rcases t with _ | ⟨c₄, rest⟩
      · rw [yearTokenAt_short _ _ _ (by simp)] at h1'
        exact absurd h1' (by simp)
      rw [findYear20, if_neg (by simp [hc])]
      rw [ih (isWordChar c₁) i₁ h1' h2', yearValueAt_succ]

theorem findYear20_eq_none_of_no_token (cs : List Char) : ∀ (prevW : Bool),
    (∀ i, yearTokenAt prevW cs i = false) → findYear20 prevW cs = Option.none := by
  induction cs with
  | nil => intro prevW _; rfl
  | cons c₁ t ih =>
    intro prevW h
    rcases t with _ | ⟨c₂, t⟩
    · rfl
    rcases t with _ | ⟨c₃, t⟩
    · rfl
    rcases t with _ | ⟨c₄, rest⟩
    · rfl
    have hc : (!prevW && year20Pattern (c₁ :: c₂ :: c₃ :: c₄ :: rest)) = false := by
      simpa [yearTokenAt, boundaryBefore] using h 0
    rw [findYear20, if_neg (by simp [hc])]
    exact ih (isWordChar c₁) (fun i => by rw [← yearTokenAt_succ]; exact h (i + 1))

theorem findYear20_range (cs : List Char) : ∀ (prevW : Bool) (y : Nat),
    findYear20 prevW cs = some y → 2000 ≤ y ∧ y ≤ 2099 := by
  induction cs with
  | nil => intro prevW y h; exact absurd h (by simp [findYear20])
  | cons c₁ t ih =>
    intro prevW y h
    rcases t with _ | ⟨c₂, t⟩
    · exact absurd h (by simp [findYear20])
    rcases t with _ | ⟨c₃, t⟩
    · exact absurd h (by simp [findYear20])
    rcases t with _ | ⟨c₄, rest⟩
    · exact absurd h (by simp [findYear20])
    rw [findYear20] at h
    by_cases hc : (!prevW && year20Pattern (c₁ :: c₂ :: c₃ :: c₄ :: rest)) = true
    · rw [if_pos (by simpa using hc)] at h
      have hp : year20Pattern (c₁ :: c₂ :: c₃ :: c₄ :: rest) = true := by
        simp at hc; exact hc.2
      simp [year20Pattern] at hp
      obtain ⟨⟨⟨⟨e₂, e₀⟩, hd₃⟩, hd₄⟩, hnw⟩ := hp
      have d₃ := digitVal_le_nine c₃ hd₃
      have d₄ := digitVal_le_nine c₄ hd₄
      simp at h
      omega
    · rw [if_neg (by simpa using hc)] at h
      exact ih (isWordChar c₁) y h

/-- C1: the year fallback of `process_single_pdf` leaves a model-reported
year unchanged (the regex fallback is skipped whenever the model's year is
present), and when the model reports no year it sets the year to the value
of the first standalone `20dd` token of the truncated text, leaving the
year absent only when no such token exists. -/
theorem c1_year_fallback_policy (m : PyDict) (t : String) :
    (pyGet m "year" ≠ PyVal.none → applyYearFallback m t = m) ∧
    (pyGet m "year" = PyVal.none →
      (∀ i, yearTokenAt false t.data i = true →
          (∀ j, j < i → yearTokenAt false t.data j = false) →
          pyGet (applyYearFallback m t) "year" =
            PyVal.int (Int.ofNat (yearValueAt t.data i))) ∧
      ((∀ i, yearTokenAt false t.data i = false) →
          pyGet (applyYearFallback m t) "year" = PyVal.none)) := by
  refine ⟨fun hne => ?_, fun h0 => ⟨fun i hi hmin => ?_, fun hall => ?_⟩⟩
  · unfold applyYearFallback
    rw [if_neg hne]
  · unfold applyYearFallback
    rw [if_pos h0, findYear20_eq_some_first t.data false i hi hmin]
    exact pyGet_dictSet_self m "year" _
  · unfold applyYearFallback
    rw [if_pos h0, findYear20_eq_none_of_no_token t.data false hall]
    exact h0

/-- Witness for C1: with no model year, the first standalone `20dd` token
of `"held 2023 in 2024"` (namely 2023, at offset 5) is selected. -/
theorem c1_year_fallback_policy_witness :
    pyGet (applyYearFallback [("department", PyVal.str "cse"), ("year", PyVal.none)]
        "held 2023 in 2024") "year" = PyVal.int 2023 := by
  have h := (c1_year_fallback_policy [("department", PyVal.str "cse"), ("year", PyVal.none)]
      "held 2023 in 2024").2 (by decide)
  exact (h.1 5 (by decide) (by decide)).trans (by decide)

/-- C8: truncating to the first `TOP_N_CHARACTERS` characters is idempotent
and the result's length never exceeds `TOP_N_CHARACTERS`; determinism is
immediate because `pyTake` is a pure function of its input. -/
theorem c8_truncation_idempotent (s : String) :
    pyTake (pyTake s TOP_N_CHARACTERS) TOP_N_CHARACTERS = pyTake s TOP_N_CHARACTERS ∧
    (pyTake s TOP_N_CHARACTERS).length ≤ TOP_N_CHARACTERS := by
  constructor
  · show String.mk ((s.data.take TOP_N_CHARACTERS).take TOP_N_CHARACTERS) =
      String.mk (s.data.take TOP_N_CHARACTERS)
    rw [List.take_take, Nat.min_self]
  · show (s.data.take TOP_N_CHARACTERS).length ≤ TOP_N_CHARACTERS
    rw [List.length_take]
    omega

/-- C5: for every successfully parsed model response, the normalized result
contains all three fields (a missing field becomes an explicit `None`); a
string-typed year is parsed to an integer, and an unparsable string, a
missing year, or a non-integer-typed value is treated as absent (Python
`bool` is an `int` subclass, hence integer-typed). -/
theorem c5_metadata_fields (m : PyDict) :
    (dictLookup (normalizeMetadata m) "department").isSome = true ∧
    (dictLookup (normalizeMetadata m) "subject").isSome = true ∧
    (dictLookup (normalizeMetadata m) "year").isSome = true ∧
    (dictLookup m "department" = Option.none →
      dictLookup (normalizeMetadata m) "department" = some PyVal.none) ∧
    (dictLookup m "subject" = Option.none →
      dictLookup (normalizeMetadata m) "subject" = some PyVal.none) ∧
    (∀ s n, pyGet m "year" = PyVal.str s → pyIntOfString s = some n →
      dictLookup (normalizeMetadata m) "year" = some (PyVal.int n)) ∧
    (∀ s, pyGet m "year" = PyVal.str s → pyIntOfString s = Option.none →
      dictLookup (normalizeMetadata m) "year" = some PyVal.none) ∧
    (∀ n, pyGet m "year" = PyVal.int n →
      dictLookup (normalizeMetadata m) "year" = some (PyVal.int n)) ∧
    (pyGet m "year" = PyVal.none →
      dictLookup (normalizeMetadata m) "year" = some PyVal.none) ∧
    (∀ tr r, pyGet m "year" = PyVal.other tr r →
      dictLookup (normalizeMetadata m) "year" = some PyVal.none) := by
  refine ⟨?_, ?_, ?_, ?_, ?_, ?_, ?_, ?_, ?_, ?_⟩
  · rw [dictLookup_normalizeMetadata_department]; rfl
  · rw [dictLookup_normalizeMetadata_subject]; rfl
  · rw [dictLookup_normalizeMetadata_year]; rfl
  · intro h
    rw [dictLookup_normalizeMetadata_department]
    unfold pyGet
    rw [h]
    rfl
  · intro h
    rw [dictLookup_normalizeMetadata_subject]
    unfold pyGet
    rw [dictLookup_ensureKey_ne _ _ _ (by decide), h]
    rfl
  · intro s n hs hp
    rw [dictLookup_normalizeMetadata_year, hs]
    simp [normYearVal, hp]
  · intro s hs hp
    rw [dictLookup_normalizeMetadata_year, hs]
    simp [normYearVal, hp]
  · intro n hn
    rw [dictLookup_normalizeMetadata_year, hn]
    rfl
  · intro h
    rw [dictLookup_normalizeMetadata_year, h]
    rfl
  · intro tr r h
    rw [dictLookup_normalizeMetadata_year, h]
    rfl

/-- Witness for C5: the string year `"2023"` is parsed to the integer 2023. -/
theorem c5_metadata_fields_witness :
    dictLookup (normalizeMetadata [("year", PyVal.str "2023")]) "year" =
      some (PyVal.int 2023) :=
  (c5_metadata_fields [("year", PyVal.str "2023")]).2.2.2.2.2.1 "2023" 2023
    (by decide) (by decide)

/-- C9: the ingestion pipeline applies no range validation to a
model-reported integer year: for every integer `y` it reaches the database
row unchanged (in particular 1850 or 9999); only a regex-fallback year is
constrained, by the shape of the pattern, to lie between 2000 and 2099. -/
theorem c9_no_year_range_validation (m : PyDict) (t u : String) (y : Int)
    (cs : List Char) (b : Bool) (yr : Nat) :
    (pyGet m "year" = PyVal.int y →
      (insertRowOf (dictSet (applyYearFallback (normalizeMetadata m) t)
          "file_url" (PyVal.str u))).year = PyVal.int y) ∧
    (findYear20 b cs = some yr → 2000 ≤ yr ∧ yr ≤ 2099) := by
  constructor
  · intro hy
    have h1 : dictLookup (normalizeMetadata m) "year" = some (PyVal.int y) := by
      rw [dictLookup_normalizeMetadata_year, hy]
      rfl
    have h2 : pyGet (normalizeMetadata m) "year" = PyVal.int y := by
      unfold pyGet
      rw [h1]
      rfl
    have h3 : applyYearFallback (normalizeMetadata m) t = normalizeMetadata m := by
      unfold applyYearFallback
      rw [if_neg (by rw [h2]; simp)]
    rw [h3]
    simp only [insertRowOf]
    unfold pyGet
    rw [dictLookup_dictSet_ne _ _ _ _ (by decide), h1]
    rfl
  · exact findYear20_range cs b yr

/-- Witness for C9: the out-of-range model year 1850 is persisted unchanged. -/
theorem c9_no_year_range_validation_witness :
    (insertRowOf (dictSet (applyYearFallback (normalizeMetadata
        [("year", PyVal.int 1850)]) "some text") "file_url" (PyVal.str "u"))).year =
      PyVal.int 1850 :=
  (c9_no_year_range_validation [("year", PyVal.int 1850)] "some text" "u" 1850
    [] false 0).1 (by decide)

theorem mem_dsConds_fst (m : PyDict) (x : String × SqlParam) (h : x ∈ dsConds m) :
    x.1 = "department ILIKE %s" ∨ x.1 = "subject ILIKE %s" := by
  unfold dsConds at h
  rcases List.mem_append.1 h with h₁ | h₁
  · split at h₁
    · simp at h₁; left; rw [h₁]
    · simp at h₁
  · split at h₁
    · simp at h₁; right; rw [h₁]
    · simp at h₁

theorem mem_yearCond_fst (m : PyDict) (x : String × SqlParam) (h : x ∈ yearCond m) :
    x.1 = "year = %s" := by
  unfold yearCond at h
  split at h
  · split at h
    · split at h
      · simp at h; rw [h]
      · simp at h
    · simp at h
  · simp at h

/-- C3: for every metadata dict, the filter builder adds a case-insensitive
substring condition (`ILIKE` with a `%`-wrapped parameter) for each present
department/subject, no condition for an absent field, and a year equality
condition exactly when the integer year is strictly between 1900 and 2100. -/
theorem c3_filter_construction (m : PyDict) :
    (pyGet m "department" = PyVal.none → ∀ p, ("department ILIKE %s", p) ∉ sqlConds m) ∧
    (∀ s, pyGet m "department" = PyVal.str s → s ≠ "" →
      ("department ILIKE %s", SqlParam.s ("%" ++ s ++ "%")) ∈ sqlConds m) ∧
    (pyGet m "subject" = PyVal.none → ∀ p, ("subject ILIKE %s", p) ∉ sqlConds m) ∧
    (∀ s, pyGet m "subject" = PyVal.str s → s ≠ "" →
      ("subject ILIKE %s", SqlParam.s ("%" ++ s ++ "%")) ∈ sqlConds m) ∧
    (∀ y : Int, pyGet m "year" = PyVal.int y →
      ((("year = %s", SqlParam.i y) ∈ sqlConds m) ↔ (1900 < y ∧ y < 2100))) := by
  refine ⟨?_, ?_, ?_, ?_, ?_⟩
  · intro h p hmem
    rcases List.mem_append.1 hmem with h₁ | h₁
    · unfold dsConds at h₁
      rw [h] at h₁
      simp [pyTruthy] at h₁
    · have hfst := mem_yearCond_fst m _ h₁
      simp at hfst
  · intro s hd hs
    apply List.mem_append_left
    unfold dsConds
    apply List.mem_append_left
    rw [hd]
    simp [pyTruthy, ilikeParam, pyStr, hs]
  · intro h p hmem
    rcases List.mem_append.1 hmem with h₁ | h₁
    · unfold dsConds at h₁
      rw [h] at h₁
      rcases List.mem_append.1 h₁ with h₂ | h₂
      · split at h₂
        · simp at h₂
        · simp at h₂
      · simp [pyTruthy] at h₂
    · have hfst := mem_yearCond_fst m _ h₁
      simp at hfst
  · intro s hd hs
    apply List.mem_append_left
    unfold dsConds
    apply List.mem_append_right
    rw [hd]
    simp [pyTruthy, ilikeParam, pyStr, hs]
  · intro y hy
    constructor
    · intro hmem
      rcases List.mem_append.1 hmem with h₁ | h₁
      · have hfst := mem_dsConds_fst m _ h₁
        simp at hfst
      · unfold yearCond at h₁
        rw [hy] at h₁
        by_cases hz : y = 0
        · subst hz
          simp [pyTruthy] at h₁
        · have ht : pyTruthy (PyVal.int y) = true := by simp [pyTruthy, hz]
          simp only [ht, eq_self_iff_true, if_true, pyIntOf] at h₁
          split at h₁
          · rename_i hr
            exact hr
          · simp at h₁
    · intro hr
      apply List.mem_append_right
      unfold yearCond
      rw [hy]
      have hz : ¬ y = 0 := by omega
      simp [pyTruthy, pyIntOf, hz, hr]

/-- Witness for C3: with `{department: null, subject: "algorithms",
year: 2023}`, the subject substring condition and the year equality
condition are present and no department condition is; 1850 and 2150 are
dropped while 2023 is retained. -/
theorem c3_filter_construction_witness :
    (("subject ILIKE %s", SqlParam.s "%algorithms%") ∈
        sqlConds [("department", PyVal.none), ("subject", PyVal.str "algorithms"),
                  ("year", PyVal.int 2023)]) ∧
    (("year = %s", SqlParam.i 2023) ∈
        sqlConds [("department", PyVal.none), ("subject", PyVal.str "algorithms"),
                  ("year", PyVal.int 2023)]) ∧
    (("department ILIKE %s", SqlParam.s "%None%") ∉
        sqlConds [("department", PyVal.none), ("subject", PyVal.str "algorithms"),
                  ("year", PyVal.int 2023)]) ∧
    (("year = %s", SqlParam.i 1850) ∉ sqlConds [("year", PyVal.int 1850)]) ∧
    (("year = %s", SqlParam.i 2150) ∉ sqlConds [("year", PyVal.int 2150)]) := by
  refine ⟨?_, ?_, ?_, ?_, ?_⟩
  · exact (c3_filter_construction _).2.2.2.1 "algorithms" (by decide) (by decide)
  · exact ((c3_filter_construction _).2.2.2.2 2023 (by decide)).2 (by decide)
  · exact (c3_filter_construction _).1 (by decide) (SqlParam.s "%None%")
  · intro hmem
    have := ((c3_filter_construction _).2.2.2.2 1850 (by decide)).1 hmem
    omega
  · intro hmem
    have := ((c3_filter_construction _).2.2.2.2 2150 (by decide)).1 hmem
    omega

/-- C7: every built query ends with the fixed ordering clause
`ORDER BY year DESC, department, subject;`, and when no field is present
there is no filter condition at all: the query is the bare SELECT plus the
ordering clause, with no parameters. -/
theorem c7_ordering_clause (m : PyDict) :
    (∃ p, (build_sql_query m).1 = p ++ orderClause) ∧
    (pyGet m "department" = PyVal.none → pyGet m "subject" = PyVal.none →
     pyGet m "year" = PyVal.none →
      build_sql_query m = (baseQuery ++ orderClause, [])) := by
  constructor
  · exact ⟨_, rfl⟩
  · intro h1 h2 h3
    have hc : sqlConds m = [] := by
      unfold sqlConds dsConds yearCond
      rw [h1, h2, h3]
      rfl
    simp [build_sql_query, hc]

/-- Witness for C7: the empty metadata dict yields the unfiltered,
ordered query. -/
theorem c7_ordering_clause_witness :
    build_sql_query [] = (baseQuery ++ orderClause, []) :=
  (c7_ordering_clause []).2 rfl rfl rfl

/-- C10: a string year is coerced with `int()` before the bound check; a
string that fails to parse — like any falsy year value — silently
contributes no year condition (the builder is a total function: nothing is
raised) and leaves the department and subject conditions untouched. -/
theorem c10_year_string_coercion (m : PyDict) :
    (∀ s : String, pyGet m "year" = PyVal.str s →
      (pyIntOfString s = Option.none → sqlConds m = dsConds m) ∧
      (∀ y, pyIntOfString s = some y →
        sqlConds m = dsConds m ++
          (if 1900 < y ∧ y < 2100 then [("year = %s", SqlParam.i y)] else []))) ∧
    (pyTruthy (pyGet m "year") = false → sqlConds m = dsConds m) := by
  constructor
  · intro s hy
    by_cases hs : s = ""
    · subst hs
      constructor
      · intro _
        unfold sqlConds yearCond
        rw [hy]
        simp [pyTruthy]
      · intro y hp
        rw [show pyIntOfString "" = Option.none from rfl] at hp
        cases hp
    · constructor
      · intro hp
        unfold sqlConds yearCond
        rw [hy]
        simp [pyTruthy, hs, pyIntOf, hp]
      · intro y hp
        unfold sqlConds yearCond
        rw [hy]
        simp [pyTruthy, hs, pyIntOf, hp]
  · intro h
    unfold sqlConds yearCond
    rw [h]
    simp

/-- Witness for C10: the unparsable year string `"20x3"` yields exactly the
department/subject conditions. -/
theorem c10_year_string_coercion_witness :
    sqlConds [("department", PyVal.str "cse"), ("year", PyVal.str "20x3")] =
      dsConds [("department", PyVal.str "cse"), ("year", PyVal.str "20x3")] :=
  ((c10_year_string_coercion _).1 "20x3" (by decide)).1 (by decide)

/-- C6: the text extractor returns the recognized text of the processed
(first) page on success and the empty string on any failure — renderer
exception, empty/unreadable rendering, or OCR exception; being a total
function into `String` (every exception is caught inside the body), it
never raises to its caller. -/
theorem c6_ocr_failure_policy (env : OcrEnv) :
    (env.convert = Option.none → extract_text_from_bytes env = "") ∧
    (env.convert = some [] → extract_text_from_bytes env = "") ∧
    (∀ img rest, env.convert = some (img :: rest) →
      env.imageToString (env.prep img) = Option.none →
      extract_text_from_bytes env = "") ∧
    (∀ img rest t, env.convert = some (img :: rest) →
      env.imageToString (env.prep img) = some t →
      extract_text_from_bytes env = t) := by
  refine ⟨fun h => ?_, fun h => ?_, fun img rest h h₂ => ?_, fun img rest t h h₂ => ?_⟩
  · simp [extract_text_from_bytes, h]
  · simp [extract_text_from_bytes, h]
  · simp [extract_text_from_bytes, h, h₂]
  · simp [extract_text_from_bytes, h, h₂]

/-- Witness for C6: a successful OCR run returns the recognized text. -/
theorem c6_ocr_failure_policy_witness :
    extract_text_from_bytes ocrEnvOk = "RECOGNIZED TEXT" :=
  (c6_ocr_failure_policy ocrEnvOk).2.2.2 ⟨0⟩ [] "RECOGNIZED TEXT" rfl rfl

theorem insertRowOf_dictSet_file_url (m : PyDict) (v : PyVal) :
    (insertRowOf (dictSet m "file_url" v)).file_url = v := by
  simp only [insertRowOf]
  exact pyGet_dictSet_self m "file_url" v

/-- C2: a database insert happens only after the upload has returned a
non-empty public URL; on any upload failure no insert is attempted, the
trace is exactly upload-then-insert, and the inserted row's file reference
is the URL the successful upload returned. -/
theorem c2_upload_then_insert (env : IngestEnv) (row : DbRow) (ok : Bool)
    (h : StorageEvent.insert row ok ∈ (processSinglePdf env).2) :
    ∃ u, env.uploadResult = some u ∧ u ≠ "" ∧ row.file_url = PyVal.str u ∧
      (processSinglePdf env).2 =
        [StorageEvent.upload env.storagePath (some u),
         StorageEvent.insert row ok] := by
  unfold processSinglePdf at h ⊢
  by_cases h₁ : env.envOk = false
  · rw [if_pos h₁] at h
    simp at h
  rw [if_neg h₁] at h ⊢
  by_cases h₂ : env.clientOk = false
  · rw [if_pos h₂] at h
    simp at h
  rw [if_neg h₂] at h ⊢
  by_cases h₃ : env.ocrText = "" ∨ pyStrip env.ocrText = ""
  · rw [if_pos h₃] at h
    simp at h
  rw [if_neg h₃] at h ⊢
  cases hllm : env.llmResponse with
  | none =>
    rw [hllm] at h
    simp at h
  | some m₀ =>
    rw [hllm] at h
    dsimp only at h ⊢
    cases herr : dictLookup (normalizeMetadata m₀) "error" with
    | some ev =>
      rw [herr] at h
      simp at h
    | none =>
      rw [herr] at h
      dsimp only at h ⊢
      unfold uploadAndInsert at h ⊢
      cases hup : env.uploadResult with
      | none =>
        rw [hup] at h
        simp at h
      | some u =>
        rw [hup] at h
        dsimp only at h ⊢
        by_cases hu : u = ""
        · rw [if_pos hu] at h
          simp at h
        rw [if_neg hu] at h ⊢
        simp at h
        refine ⟨u, rfl, hu, ?_, ?_⟩
        · rw [h.1]
          exact insertRowOf_dictSet_file_url _ _
        · simp [h.1, h.2]

/-- Witness for C2: on a fully successful run the trace is exactly
upload-then-insert and the inserted row carries the uploaded URL. -/
theorem c2_upload_then_insert_witness :
    ∃ u, envAllOk.uploadResult = some u ∧ u ≠ "" ∧
      (DbRow.mk (PyVal.str "cse") (PyVal.str "ds") (PyVal.int 2023)
        (PyVal.str "https://storage/u1.pdf")).file_url = PyVal.str u ∧
      (processSinglePdf envAllOk).2 =
        [StorageEvent.upload envAllOk.storagePath (some u),
         StorageEvent.insert (DbRow.mk (PyVal.str "cse") (PyVal.str "ds") (PyVal.int 2023)
           (PyVal.str "https://storage/u1.pdf")) true] :=
  c2_upload_then_insert envAllOk _ true (by decide)

/-- C4 counterexample: when OCR succeeds (the extracted text
`"Exam paper 2023"` is nonempty) and the LLM stage fails, the pipeline's
error response attaches neither the extracted text nor any partial
metadata, contradicting the claim that whatever partial output earlier
stages produced is attached at the first failed stage. -/
theorem c4_error_propagation_counterexample :
    (processSinglePdf envLlmFail).1.status = "Error" ∧
    pyStrip envLlmFail.ocrText ≠ "" ∧
    (processSinglePdf envLlmFail).1.rawText = Option.none ∧
    (processSinglePdf envLlmFail).1.metadata = Option.none := by
  exact ⟨by decide, by decide, by decide, by decide⟩

/-- C4 (amended): within the ingestion pipeline, every stage converts its
failure into an error-marked result rather than raising, and the
orchestration short-circuits at the first failed stage; upload-stage and
insert-stage failures attach the partial metadata and the truncated text,
but OCR-stage and LLM-stage failures return only the error message, without
the partial output produced so far.  The query pipeline has no such
property: `extract_metadata_from_query` evaluates the undefined name
`LLM_MODEL` outside its `try` block, so every run of `process_user_query`
propagates that `NameError` to its caller and never reaches the SQL builder
or the database. -/
theorem c4_error_propagation_amended (env : IngestEnv) (qenv : QueryEnv) :
    (env.envOk = true → env.clientOk = true →
      (env.ocrText = "" ∨ pyStrip env.ocrText = "") →
      processSinglePdf env =
        ({ filename := env.filename, status := "Error",
           message := some (PyVal.str "No text extracted from PDF."),
           metadata := Option.none, rawText := Option.none }, [])) ∧
    (env.envOk = true → env.clientOk = true →
      ¬(env.ocrText = "" ∨ pyStrip env.ocrText = "") →
      env.llmResponse = Option.none →
      processSinglePdf env =
        ({ filename := env.filename, status := "Error",
           message := some (PyVal.str ("LLM Error: " ++ env.llmErrMsg)),
           metadata := Option.none, rawText := Option.none }, [])) ∧
    (∀ m₀, env.envOk = true → env.clientOk = true →
      ¬(env.ocrText = "" ∨ pyStrip env.ocrText = "") →
      env.llmResponse = some m₀ →
      dictLookup (normalizeMetadata m₀) "error" = Option.none →
      env.uploadResult = Option.none →
      processSinglePdf env =
        ({ filename := env.filename, status := "Error",
           message := some (PyVal.str "Failed to upload file to Supabase storage."),
           metadata := some (applyYearFallback (normalizeMetadata m₀)
             (pyTake env.ocrText TOP_N_CHARACTERS)),
           rawText := some (pyTake env.ocrText TOP_N_CHARACTERS) },
         [StorageEvent.upload env.storagePath Option.none])) ∧
    (∀ m₀ u, env.envOk = true → env.clientOk = true →
      ¬(env.ocrText = "" ∨ pyStrip env.ocrText = "") →
      env.llmResponse = some m₀ →
      dictLookup (normalizeMetadata m₀) "error" = Option.none →
      env.uploadResult = some u → u ≠ "" → env.insertOk = false →
      processSinglePdf env =
        ({ filename := env.filename, status := "Error",
           message := some (PyVal.str "Failed to insert metadata into Supabase database."),
           metadata := some (dictSet (applyYearFallback (normalizeMetadata m₀)
             (pyTake env.ocrText TOP_N_CHARACTERS)) "file_url" (PyVal.str u)),
           rawText := some (pyTake env.ocrText TOP_N_CHARACTERS) },
         [StorageEvent.upload env.storagePath (some u),
          StorageEvent.insert (insertRowOf (dictSet (applyYearFallback (normalizeMetadata m₀)
            (pyTake env.ocrText TOP_N_CHARACTERS)) "file_url" (PyVal.str u))) false])) ∧
    (process_user_query qenv = Except.error nameErrorLLMModel) := by
  refine ⟨?_, ?_, ?_, ?_, ?_⟩
  · intro h₁ h₂ h₃
    unfold processSinglePdf
    rw [h₁, h₂, if_neg (by simp), if_neg (by simp), if_pos h₃]
  · intro h₁ h₂ h₃ h₄
    unfold processSinglePdf
    rw [h₁, h₂, if_neg (by simp), if_neg (by simp), if_neg h₃, h₄]
  · intro m₀ h₁ h₂ h₃ h₄ h₅ h₆
    unfold processSinglePdf uploadAndInsert
    rw [h₁, h₂, if_neg (by simp), if_neg (by simp), if_neg h₃, h₄]
    dsimp only
    rw [h₅]
    dsimp only
    rw [h₆]
  · intro m₀ u h₁ h₂ h₃ h₄ h₅ h₆ h₇ h₈
    unfold processSinglePdf uploadAndInsert
    rw [h₁, h₂, if_neg (by simp), if_neg (by simp), if_neg h₃, h₄]
    dsimp only
    rw [h₅]
    dsimp only
    rw [h₆]
    dsimp only
    rw [if_neg h₇, h₈, if_neg (by simp)]
  · rfl

/-- Witness for C4 (amended): an upload-stage failure attaches the partial
metadata and the truncated text, with no insert attempted. -/
theorem c4_error_propagation_amended_witness :
    processSinglePdf envUploadFail =
      ({ filename := "h.pdf", status := "Error",
         message := some (PyVal.str "Failed to upload file to Supabase storage."),
         metadata := some (applyYearFallback
           (normalizeMetadata [("department", PyVal.str "cse")])
           (pyTake "Exam 2021 text" TOP_N_CHARACTERS)),
         rawText := some (pyTake "Exam 2021 text" TOP_N_CHARACTERS) },
       [StorageEvent.upload "u3.pdf" Option.none]) :=
  (c4_error_propagation_amended envUploadFail qenvAllOk).2.2.1
    [("department", PyVal.str "cse")] rfl rfl (by decide) rfl (by decide) rfl
